import Mathlib

/-!
Verification of the perceptron teaching notebook (`notebooks/ann-introduction.ipynb`).

The notebook's numeric code runs on numpy floating-point values; the embedding
models the arithmetic exactly over `ℚ`.  Python/numpy runtime errors
(`ValueError` from `np.dot` on mismatched 1-D shapes, `IndexError` from list
indexing) are modelled with `Except String`.  The `print` calls of
`train_perceptron` are modelled as an explicit trace of per-batch records, and
the Python function's (absent) return value as an `Option` field that is
always `none`.
-/

set_option autoImplicit false

deriving instance DecidableEq for Except

namespace Ann

/-- numpy `np.dot` on two 1-D vectors: raises `ValueError` when the lengths
differ, otherwise the sum of pairwise products (accumulated left to right). -/
def npDot (a b : List ℚ) : Except String ℚ :=
  if a.length = b.length then
    .ok ((List.zip a b).foldl (fun s p => s + p.1 * p.2) 0)
  else
    .error "ValueError: shapes not aligned"

/-- The bias weight hard-coded inside the notebook's `perceptron` body
(`bias_weight = .2`). -/
def bias_weight : ℚ := 2/10

/-- Notebook `perceptron(input, weights, threshold)`: dot product of
input and weights, plus `bias_weight * 1`, thresholded to 1 or 0. -/
def perceptron (input weights : List ℚ) (threshold : ℚ) : Except String ℚ := do
  let d ← npDot input weights
  let activation_level := d + bias_weight * 1
  if activation_level ≥ threshold then
    pure 1
  else
    pure 0

/-- The loop body of `adjust_weights`: iterates over `given_input` carrying the
running index `i` of Python's `enumerate`, reading `input_weights[i]` (an
`IndexError` when out of range) and collecting the adjusted entries. -/
def adjustLoop (perceptron_output expected_output learning_rate : ℚ)
    (input_weights : List ℚ) : Nat → List ℚ → Except String (List ℚ)
  | _, [] => .ok []
  | i, x :: rest =>
    match input_weights[i]? with
    | none => .error "IndexError: list index out of range"
    | some wi => do
      let new_weight := wi + (expected_output - perceptron_output) * x * learning_rate
      let tail ← adjustLoop perceptron_output expected_output learning_rate
          input_weights (i + 1) rest
      pure (new_weight :: tail)

/-- Notebook `adjust_weights(perceptron_output, expected_output, given_input,
input_weights, learning_rate)`. -/
def adjust_weights (perceptron_output expected_output : ℚ)
    (given_input input_weights : List ℚ) (learning_rate : ℚ) :
    Except String (List ℚ) :=
  adjustLoop perceptron_output expected_output learning_rate input_weights 0 given_input

/-- The first inner loop of `train_perceptron`: build `output` by appending
`perceptron(datum, weights, activation_threshold)` for each datum. -/
def outputLoop (activation_threshold : ℚ) (weights : List ℚ) :
    List ℚ → List (List ℚ) → Except String (List ℚ)
  | acc, [] => .ok acc
  | acc, datum :: rest => do
    let o ← perceptron datum weights activation_threshold
    outputLoop activation_threshold weights (acc ++ [o]) rest

/-- The second inner loop of `train_perceptron`: for `idx, datum` in
`enumerate(input_features)`, rebind `weights` to
`adjust_weights(output[idx], input_labels[idx], datum, weights, lr)`.
Both indexings are Python list accesses and can raise `IndexError`. -/
def updateLoop (output input_labels : List ℚ) (learning_rate : ℚ) :
    Nat → List (List ℚ) → List ℚ → Except String (List ℚ)
  | _, [], weights => .ok weights
  | idx, datum :: rest, weights =>
    match output[idx]?, input_labels[idx]? with
    | some o, some lab => do
      let weights' ← adjust_weights o lab datum weights learning_rate
      updateLoop output input_labels learning_rate (idx + 1) rest weights'
    | _, _ => .error "IndexError: list index out of range"

/-- What one batch of `train_perceptron` prints: the pre-batch weights, the
batch's output list, and the post-batch weights. -/
structure BatchLog where
  pre : List ℚ
  output : List ℚ
  post : List ℚ
  deriving Repr, DecidableEq

/-- The observable behaviour of a `train_perceptron` call: the per-batch
printed trace, and the Python return value.  The notebook's function body has
no `return` statement, so `retVal` is always `none`. -/
structure TrainResult where
  trace : List BatchLog
  retVal : Option (List ℚ)
  deriving Repr, DecidableEq

/-- The `for batch_num in range(0, num_batches)` loop of `train_perceptron`. -/
def trainLoop (input_features : List (List ℚ)) (input_labels : List ℚ)
    (activation_threshold learning_rate : ℚ) :
    Nat → List ℚ → Except String (List BatchLog)
  | 0, _ => .ok []
  | n + 1, weights => do
    let output ← outputLoop activation_threshold weights [] input_features
    let weights' ← updateLoop output input_labels learning_rate 0 input_features weights
    let rest ← trainLoop input_features input_labels activation_threshold learning_rate
        n weights'
    pure ({ pre := weights, output := output, post := weights' } :: rest)

/-- Notebook `train_perceptron(input_features, input_labels, initial_weights,
activation_threshold, num_batches, learning_rate)`.  The
function only prints (the trace) and returns `None` (`retVal := none`). -/
def train_perceptron (input_features : List (List ℚ)) (input_labels : List ℚ)
    (initial_weights : List ℚ) (activation_threshold : ℚ) (num_batches : Nat)
    (learning_rate : ℚ) : Except String TrainResult := do
  let trace ← trainLoop input_features input_labels activation_threshold learning_rate
      num_batches initial_weights
  pure { trace := trace, retVal := none }

/-- The notebook's `example_input`. -/
def example_input : List ℚ := [1, 2/10, 1/10, 5/100, 2/10]

/-- The notebook's `example_weights`. -/
def example_weights : List ℚ := [2/10, 12/100, 4/10, 6/10, 9/10]

/-- The notebook's `sample_data` (logical-OR examples). -/
def sample_data : List (List ℚ) := [[0, 0], [0, 1], [1, 0], [1, 1]]

/-- The notebook's `expected_results` (logical-OR labels). -/
def expected_results : List ℚ := [0, 1, 1, 1]

/-- The notebook's `xor_features`. -/
def xor_features : List (List ℚ) := [[0, 0], [0, 1], [1, 0], [1, 1]]

/-- The notebook's `xor_labels`, flattened: the notebook stores them as the
column vector `[[0],[1],[1],[0]]`, whose rows enter the weight-update rule as
the scalar labels 0, 1, 1, 0. -/
def xor_labels : List ℚ := [0, 1, 1, 0]

/-! ### Spec-side definitions

These follow the wording of the design spec, for comparison with the
notebook-side definitions above. -/

/-- Inner product of two feature vectors, as the spec words it. -/
def innerProd (a b : List ℚ) : ℚ :=
  (List.zipWith (fun x y => x * y) a b).sum

/-- The spec's `evaluate(example, weights, bias, threshold)` operation, with
its caller-configurable bias parameter: 1 when the inner product plus the bias
reaches the threshold, else 0, and a dimension-mismatch error when the lengths
differ. -/
def evaluate (exampleVec weights : List ℚ) (bias threshold : ℚ) : Except String ℚ :=
  if exampleVec.length = weights.length then
    .ok (if innerProd exampleVec weights + bias ≥ threshold then 1 else 0)
  else
    .error "DimensionMismatch"

/-- Spec step 1 of a batch: evaluate every example against the batch's current
weights, before any update is applied. -/
def batchOutputs (threshold : ℚ) (w : List ℚ) :
    List (List ℚ) → Except String (List ℚ)
  | [] => .ok []
  | d :: ds => do
    let o ← perceptron d w threshold
    let os ← batchOutputs threshold w ds
    pure (o :: os)

/-- Spec step 2 of a batch: apply `adjust` once per example in input order,
each adjustment starting from the weight vector produced by the previous one. -/
def chainAdjust (lr : ℚ) : List (List ℚ) → List ℚ → List ℚ → List ℚ →
    Except String (List ℚ)
  | [], _, _, w => .ok w
  | d :: ds, o :: os, lab :: labs, w => do
    let w' ← adjust_weights o lab d w lr
    chainAdjust lr ds os labs w'
  | _ :: _, _, _, _ => .error "IndexError: list index out of range"

/-- Spec-side training: perform exactly `n` batches, each computing all
outputs from the batch's starting weights and then chaining the adjustments;
the next batch starts from the weights at the end of the chain. -/
def trainBatches (features : List (List ℚ)) (labels : List ℚ) (θ lr : ℚ) :
    Nat → List ℚ → Except String (List BatchLog)
  | 0, _ => .ok []
  | n + 1, w => do
    let outputs ← batchOutputs θ w features
    let w' ← chainAdjust lr features outputs labels w
    let rest ← trainBatches features labels θ lr n w'
    pure ({ pre := w, output := outputs, post := w' } :: rest)

/-- The weight vector as of the end of the last of `n` batches. -/
def finalWeights (features : List (List ℚ)) (labels : List ℚ) (θ lr : ℚ) :
    Nat → List ℚ → Except String (List ℚ)
  | 0, w => .ok w
  | n + 1, w => do
    let outputs ← batchOutputs θ w features
    let w' ← chainAdjust lr features outputs labels w
    finalWeights features labels θ lr n w'

/-! ### Basic lemmas about the `Except` monad plumbing -/

theorem bindE_ok {α β : Type} (a : α) (f : α → Except String β) :
    (Except.ok a >>= f) = f a := rfl

theorem bindE_error {α β : Type} (e : String) (f : α → Except String β) :
    ((Except.error e : Except String α) >>= f) = Except.error e := rfl

theorem pureE {α : Type} (a : α) : (pure a : Except String α) = Except.ok a := rfl

/-! ### The literal notebook loops agree with the spec-shaped definitions -/

theorem outputLoop_eq (θ : ℚ) (w : List ℚ) :
    ∀ (ds : List (List ℚ)) (acc : List ℚ),
      outputLoop θ w acc ds = (batchOutputs θ w ds).map (fun os => acc ++ os)
  | [], acc => by simp [outputLoop, batchOutputs, Except.map]
  | d :: ds, acc => by
    simp only [outputLoop, batchOutputs]
    cases hp : perceptron d w θ with
    | error e => simp [hp, bindE_error, Except.map]
    | ok o =>
      simp only [hp, bindE_ok]
      rw [outputLoop_eq θ w ds (acc ++ [o])]
      cases hb : batchOutputs θ w ds with
      | error e => simp [bindE_error, Except.map]
      | ok os => simp [bindE_ok, pureE, Except.map, List.map_cons, List.map_nil]

theorem updateLoop_eq (out labs : List ℚ) (lr : ℚ) :
    ∀ (ds : List (List ℚ)) (i : Nat) (w : List ℚ),
      updateLoop out labs lr i ds w = chainAdjust lr ds (out.drop i) (labs.drop i) w
  | [], i, w => by
    simp only [updateLoop]
    cases ho : out.drop i <;> cases hl : labs.drop i <;> rfl
  | d :: ds, i, w => by
    simp only [updateLoop]
    cases ho : out[i]? with
    | none =>
      have hdrop : out.drop i = [] :=
        List.drop_eq_nil_of_le (List.getElem?_eq_none_iff.mp ho)
      rw [hdrop]
      cases hl : labs.drop i <;> rfl
    | some o =>
      obtain ⟨hoi, hov⟩ := List.getElem?_eq_some_iff.mp ho
      have hdropo : out.drop i = o :: out.drop (i + 1) := by
        rw [List.drop_eq_getElem_cons hoi, hov]
      cases hl : labs[i]? with
      | none =>
        have hdropl : labs.drop i = [] :=
          List.drop_eq_nil_of_le (List.getElem?_eq_none_iff.mp hl)
        rw [hdropo, hdropl]
        rfl
      | some lab =>
        obtain ⟨hli, hlv⟩ := List.getElem?_eq_some_iff.mp hl
        have hdropl : labs.drop i = lab :: labs.drop (i + 1) := by
          rw [List.drop_eq_getElem_cons hli, hlv]
        rw [hdropo, hdropl]
        show (do
            let w' ← adjust_weights o lab d w lr
            updateLoop out labs lr (i + 1) ds w') = _
        cases hadj : adjust_weights o lab d w lr with
        | error e => simp [hadj, bindE_error, chainAdjust]
        | ok w' =>
          simp only [hadj, bindE_ok, chainAdjust]
          exact updateLoop_eq out labs lr ds (i + 1) w'

theorem trainLoop_eq (f : List (List ℚ)) (l : List ℚ) (θ lr : ℚ) :
    ∀ (n : Nat) (w : List ℚ),
      trainLoop f l θ lr n w = trainBatches f l θ lr n w
  | 0, w => rfl
  | n + 1, w => by
    simp only [trainLoop, trainBatches]
    rw [outputLoop_eq]
    cases hb : batchOutputs θ w f with
    | error e => simp [bindE_error, Except.map]
    | ok out =>
      simp only [Except.map, bindE_ok, List.nil_append]
      rw [updateLoop_eq, List.drop_zero, List.drop_zero]
      cases hc : chainAdjust lr f out l w with
      | error e => simp [bindE_error]
      | ok w' =>
        simp only [bindE_ok]
        rw [trainLoop_eq f l θ lr n w']

theorem train_eq_trainBatches (f : List (List ℚ)) (l : List ℚ) (w : List ℚ)
    (θ : ℚ) (n : Nat) (lr : ℚ) :
    train_perceptron f l w θ n lr =
      (trainBatches f l θ lr n w).map (fun tr => { trace := tr, retVal := none }) := by
  simp only [train_perceptron]
  rw [trainLoop_eq]
  cases trainBatches f l θ lr n w with
  | error e => rfl
  | ok tr => rfl

theorem trainBatches_length (f : List (List ℚ)) (l : List ℚ) (θ lr : ℚ) :
    ∀ (n : Nat) (w : List ℚ) (tr : List BatchLog),
      trainBatches f l θ lr n w = Except.ok tr → tr.length = n
  | 0, w, tr, h => by
    simp only [trainBatches] at h
    cases h
    rfl
  | n + 1, w, tr, h => by
    simp only [trainBatches] at h
    cases hb : batchOutputs θ w f with
    | error e => rw [hb, bindE_error] at h; cases h
    | ok out =>
      rw [hb, bindE_ok] at h
      cases hc : chainAdjust lr f out l w with
      | error e => rw [hc, bindE_error] at h; cases h
      | ok w' =>
        rw [hc, bindE_ok] at h
        cases hr : trainBatches f l θ lr n w' with
        | error e => rw [hr, bindE_error] at h; cases h
        | ok rest =>
          rw [hr, bindE_ok, pureE] at h
          cases h
          simp [trainBatches_length f l θ lr n w' rest hr]

theorem trainBatches_pre_output (f : List (List ℚ)) (l : List ℚ) (θ lr : ℚ) :
    ∀ (n : Nat) (w : List ℚ) (tr : List BatchLog),
      trainBatches f l θ lr n w = Except.ok tr →
      ∀ bl ∈ tr, batchOutputs θ bl.pre f = Except.ok bl.output
  | 0, w, tr, h => by
    simp only [trainBatches] at h
    cases h
    intro bl hbl
    cases hbl
  | n + 1, w, tr, h => by
    simp only [trainBatches] at h
    cases hb : batchOutputs θ w f with
    | error e => rw [hb, bindE_error] at h; cases h
    | ok out =>
      rw [hb, bindE_ok] at h
      cases hc : chainAdjust lr f out l w with
      | error e => rw [hc, bindE_error] at h; cases h
      | ok w' =>
        rw [hc, bindE_ok] at h
        cases hr : trainBatches f l θ lr n w' with
        | error e => rw [hr, bindE_error] at h; cases h
        | ok rest =>
          rw [hr, bindE_ok, pureE] at h
          cases h
          intro bl hbl
          rcases List.mem_cons.mp hbl with hbl | hbl
          · subst hbl; exact hb
          · exact trainBatches_pre_output f l θ lr n w' rest hr bl hbl

theorem trainBatches_last_post (f : List (List ℚ)) (l : List ℚ) (θ lr : ℚ) :
    ∀ (n : Nat) (w : List ℚ) (tr : List BatchLog),
      trainBatches f l θ lr n w = Except.ok tr →
      finalWeights f l θ lr n w = Except.ok ((tr.map BatchLog.post).getLastD w)
  | 0, w, tr, h => by
    simp only [trainBatches] at h
    cases h
    rfl
  | n + 1, w, tr, h => by
    simp only [trainBatches] at h
    cases hb : batchOutputs θ w f with
    | error e => rw [hb, bindE_error] at h; cases h
    | ok out =>
      rw [hb, bindE_ok] at h
      cases hc : chainAdjust lr f out l w with
      | error e => rw [hc, bindE_error] at h; cases h
      | ok w' =>
        rw [hc, bindE_ok] at h
        cases hr : trainBatches f l θ lr n w' with
        | error e => rw [hr, bindE_error] at h; cases h
        | ok rest =>
          rw [hr, bindE_ok, pureE] at h
          cases h
          simp only [finalWeights, hb, bindE_ok, hc]
          rw [trainBatches_last_post f l θ lr n w' rest hr]
          simp only [List.map_cons]
          rw [List.getLastD_cons]

/-! ### Arithmetic characterisations of `npDot`, `perceptron`, `adjust_weights` -/

theorem zip_foldl_eq (a : List ℚ) : ∀ (b : List ℚ) (c : ℚ),
    (List.zip a b).foldl (fun s p => s + p.1 * p.2) c = c + innerProd a b := by
  induction a with
  | nil => intro b c; simp [innerProd]
  | cons x xs ih =>
    intro b c
    cases b with
    | nil => simp [innerProd]
    | cons y ys =>
      simp only [List.zip_cons_cons, List.foldl_cons, innerProd,
        List.zipWith_cons_cons, List.sum_cons]
      rw [ih ys (c + x * y)]
      show c + x * y + innerProd xs ys = c + (x * y + innerProd xs ys)
      ring

theorem npDot_eq_ok (a b : List ℚ) (h : a.length = b.length) :
    npDot a b = Except.ok (innerProd a b) := by
  simp only [npDot, if_pos h, zip_foldl_eq, zero_add]

theorem npDot_ok_length {a b : List ℚ} {v : ℚ} (h : npDot a b = Except.ok v) :
    a.length = b.length := by
  by_cases hl : a.length = b.length
  · exact hl
  · simp only [npDot, if_neg hl] at h
    cases h

theorem perceptron_eq_formula (input weights : List ℚ) (θ : ℚ)
    (h : input.length = weights.length) :
    perceptron input weights θ =
      Except.ok (if innerProd input weights + 1/5 ≥ θ then 1 else 0) := by
  simp only [perceptron, npDot_eq_ok input weights h, bindE_ok]
  have hb : innerProd input weights + bias_weight * 1 = innerProd input weights + 1/5 := by
    norm_num [bias_weight]
  rw [hb]
  split_ifs <;> rfl

theorem perceptron_ok_length {input weights : List ℚ} {θ v : ℚ}
    (h : perceptron input weights θ = Except.ok v) :
    input.length = weights.length := by
  cases hd : npDot input weights with
  | error e => simp only [perceptron, hd, bindE_error] at h; cases h
  | ok d => exact npDot_ok_length hd

theorem perceptron_pair (x y a b θ : ℚ) :
    perceptron [x, y] [a, b] θ =
      Except.ok (if x * a + y * b + 1/5 ≥ θ then 1 else 0) := by
  have h := perceptron_eq_formula [x, y] [a, b] θ rfl
  rw [h]
  have hip : innerProd [x, y] [a, b] = x * a + y * b := by
    simp [innerProd]
  rw [hip]

theorem adjustLoop_ok (o e lr : ℚ) (w : List ℚ) :
    ∀ (xs : List ℚ) (i : Nat), i + xs.length ≤ w.length →
      adjustLoop o e lr w i xs =
        Except.ok (List.zipWith (fun x wi => wi + (e - o) * x * lr) xs (w.drop i))
  | [], i, h => by simp [adjustLoop]
  | x :: xs, i, h => by
    have hi : i < w.length := by
      simp only [List.length_cons] at h
      omega
    have hdrop : w.drop i = w.get ⟨i, hi⟩ :: w.drop (i + 1) :=
      List.drop_eq_getElem_cons hi
    simp only [adjustLoop, List.getElem?_eq_getElem hi]
    rw [adjustLoop_ok o e lr w xs (i + 1) (by simp only [List.length_cons] at h; omega)]
    rw [hdrop]
    rfl

theorem adjustLoop_error (o e lr : ℚ) (w : List ℚ) :
    ∀ (xs : List ℚ) (i : Nat), xs ≠ [] → w.length < i + xs.length →
      adjustLoop o e lr w i xs = Except.error "IndexError: list index out of range"
  | [], _, hne, _ => absurd rfl hne
  | x :: xs, i, _, h => by
    by_cases hi : i < w.length
    · have hxs : xs ≠ [] := by
        intro hx
        subst hx
        simp only [List.length_cons, List.length_nil] at h
        omega
      simp only [adjustLoop, List.getElem?_eq_getElem hi]
      rw [adjustLoop_error o e lr w xs (i + 1)
        hxs (by simp only [List.length_cons] at h; omega)]
      rfl
    · have : w[i]? = none := List.getElem?_eq_none (by omega)
      simp [adjustLoop, this]

theorem adjust_weights_ok (o e lr : ℚ) (xs w : List ℚ) (h : xs.length ≤ w.length) :
    adjust_weights o e xs w lr =
      Except.ok (List.zipWith (fun x wi => wi + (e - o) * x * lr) xs w) := by
  have := adjustLoop_ok o e lr w xs 0 (by omega)
  simpa [adjust_weights] using this

theorem adjust_weights_error (o e lr : ℚ) (xs w : List ℚ) (h : w.length < xs.length) :
    adjust_weights o e xs w lr = Except.error "IndexError: list index out of range" := by
  have hne : xs ≠ [] := by
    intro hx
    subst hx
    simp only [List.length_nil] at h
    omega
  have := adjustLoop_error o e lr w xs 0 hne (by omega)
  simpa [adjust_weights] using this

theorem adjust_pair (o e x y a b lr : ℚ) :
    adjust_weights o e [x, y] [a, b] lr =
      Except.ok [a + (e - o) * x * lr, b + (e - o) * y * lr] := rfl

/-! ### Batch-level computations on the two-input truth-table datasets -/

theorem pair_batchOutputs (a b θ : ℚ) :
    batchOutputs θ [a, b] [[0, 0], [0, 1], [1, 0], [1, 1]] =
      Except.ok [if 0 * a + 0 * b + 1/5 ≥ θ then 1 else 0,
                 if 0 * a + 1 * b + 1/5 ≥ θ then 1 else 0,
                 if 1 * a + 0 * b + 1/5 ≥ θ then 1 else 0,
                 if 1 * a + 1 * b + 1/5 ≥ θ then 1 else 0] := by
  simp only [batchOutputs, perceptron_pair, bindE_ok, pureE]

theorem or_outputs_all_wrong (a b : ℚ) (h2 : b < 3/10) (h3 : a < 3/10)
    (h4 : a + b < 3/10) :
    batchOutputs (1/2) [a, b] sample_data = Except.ok [0, 0, 0, 0] := by
  rw [show sample_data = [[0, 0], [0, 1], [1, 0], [1, 1]] from rfl, pair_batchOutputs]
  rw [if_neg (by norm_num), if_neg (by intro hc; nlinarith), if_neg (by intro hc; nlinarith),
    if_neg (by intro hc; nlinarith)]

theorem or_outputs_last_right (a b : ℚ) (h2 : b < 3/10) (h3 : a < 3/10)
    (h4 : a + b ≥ 3/10) :
    batchOutputs (1/2) [a, b] sample_data = Except.ok [0, 0, 0, 1] := by
  rw [show sample_data = [[0, 0], [0, 1], [1, 0], [1, 1]] from rfl, pair_batchOutputs]
  rw [if_neg (by norm_num), if_neg (by intro hc; nlinarith), if_neg (by intro hc; nlinarith),
    if_pos (by nlinarith)]

theorem or_outputs_converged (a b : ℚ) (h2 : b ≥ 3/10) (h3 : a ≥ 3/10) :
    batchOutputs (1/2) [a, b] sample_data = Except.ok [0, 1, 1, 1] := by
  rw [show sample_data = [[0, 0], [0, 1], [1, 0], [1, 1]] from rfl, pair_batchOutputs]
  rw [if_neg (by norm_num), if_pos (by nlinarith), if_pos (by nlinarith),
    if_pos (by nlinarith)]

theorem or_update_all_wrong (lr a b : ℚ) :
    chainAdjust lr sample_data [0, 0, 0, 0] expected_results [a, b] =
      Except.ok [a + 2 * lr, b + 2 * lr] := by
  simp only [sample_data, expected_results, chainAdjust, adjust_pair, bindE_ok]
  simp only [Except.ok.injEq, List.cons.injEq, and_true]
  constructor <;> ring

theorem or_update_last_right (lr a b : ℚ) :
    chainAdjust lr sample_data [0, 0, 0, 1] expected_results [a, b] =
      Except.ok [a + lr, b + lr] := by
  simp only [sample_data, expected_results, chainAdjust, adjust_pair, bindE_ok]
  simp only [Except.ok.injEq, List.cons.injEq, and_true]
  constructor <;> ring

theorem or_update_converged (lr a b : ℚ) :
    chainAdjust lr sample_data [0, 1, 1, 1] expected_results [a, b] =
      Except.ok [a, b] := by
  simp only [sample_data, expected_results, chainAdjust, adjust_pair, bindE_ok]
  simp only [Except.ok.injEq, List.cons.injEq, and_true]
  constructor <;> ring

/-- On the XOR truth table, no weight pair and threshold can reproduce the
labels 0, 1, 1, 0: the linear inequalities are jointly unsatisfiable. -/
theorem xor_outputs_never_labels (w : List ℚ) (θ : ℚ) (out : List ℚ)
    (h : batchOutputs θ w xor_features = Except.ok out) : out ≠ xor_labels := by
  intro hout
  subst hout
  have h' := h
  simp only [xor_features, batchOutputs] at h'
  cases hp : perceptron [0, 0] w θ with
  | error e => rw [hp, bindE_error] at h'; cases h'
  | ok o1 =>
    have hlen : ([0, 0] : List ℚ).length = w.length := perceptron_ok_length hp
    simp only [List.length_cons, List.length_nil] at hlen
    rcases w with _ | ⟨a, w⟩
    · simp at hlen
    rcases w with _ | ⟨b, w⟩
    · simp at hlen
    rcases w with _ | ⟨c, w⟩
    swap
    · simp at hlen
    rw [show xor_features = [[0, 0], [0, 1], [1, 0], [1, 1]] from rfl,
      pair_batchOutputs] at h
    simp only [xor_labels, Except.ok.injEq, List.cons.injEq, and_true] at h
    obtain ⟨h1, h2, h3, h4⟩ := h
    have nc1 : ¬ (0 * a + 0 * b + 1/5 ≥ θ) := by
      intro hc
      rw [if_pos hc] at h1
      norm_num at h1
    have c2 : 0 * a + 1 * b + 1/5 ≥ θ := by
      by_contra hc
      rw [if_neg hc] at h2
      norm_num at h2
    have c3 : 1 * a + 0 * b + 1/5 ≥ θ := by
      by_contra hc
      rw [if_neg hc] at h3
      norm_num at h3
    have nc4 : ¬ (1 * a + 1 * b + 1/5 ≥ θ) := by
      intro hc
      rw [if_pos hc] at h4
      norm_num at h4
    have l1 := lt_of_not_ge nc1
    have l4 := lt_of_not_ge nc4
    nlinarith

/-! ### The claims -/

/-- C9: `adjust_weights` with observed 1, expected 0, learning rate 1, the
notebook's example input and example weights returns exactly
`[-0.8, -0.08, 0.3, 0.55, 0.7]`, deterministically. -/
theorem C9_adjust_golden :
    adjust_weights 1 0 example_input example_weights 1 =
      Except.ok [-(4/5), -(2/25), 3/10, 11/20, 7/10] := by
  rw [adjust_weights_ok 1 0 1 example_input example_weights (by decide)]
  norm_num [example_input, example_weights]

/-- C2 counterexample: the claim quantifies over an arbitrary bias, but the
code's bias is hard-wired: with example `[1]`, weights `[1]`, bias `1/2` and
threshold `3/2`, the inner product plus the bias reaches the threshold, yet
`perceptron` returns 0, not 1. -/
theorem C2_counterexample :
    innerProd [1] [1] + 1/2 ≥ (3/2 : ℚ) ∧
      perceptron [1] [1] (3/2) ≠ Except.ok 1 := by
  constructor
  · norm_num [innerProd]
  · intro h
    rw [perceptron_eq_formula [1] [1] (3/2) rfl] at h
    rw [if_neg (by norm_num [innerProd])] at h
    exact absurd (Except.ok.inj h) (by norm_num)

/-- C2 (amended): `evaluate` takes no bias argument; the bias is the constant
`0.2` fixed in the function body.  For equal-length vectors the output is 1
exactly when the inner product plus `1/5` reaches the threshold, else 0. -/
theorem C2_evaluate_rule (input weights : List ℚ) (θ : ℚ)
    (h : input.length = weights.length) :
    perceptron input weights θ =
      Except.ok (if innerProd input weights + 1/5 ≥ θ then 1 else 0) :=
  perceptron_eq_formula input weights θ h

/-- C2 witness: at the spec's concrete data (weights `[.2,.12,.4,.6,.9]`,
input `[1,.2,.1,.05,.2]`, threshold `0.5`) the output is 1; the inner product
plus the bias is in fact `.674` (not the spec's `.701`), still `≥ .5`. -/
theorem C2_witness :
    example_input.length = example_weights.length ∧
      innerProd example_input example_weights + 1/5 = 337/500 ∧
      perceptron example_input example_weights (1/2) = Except.ok 1 := by
  refine ⟨rfl, by norm_num [innerProd, example_input, example_weights], ?_⟩
  rw [C2_evaluate_rule example_input example_weights (1/2) rfl]
  rw [if_pos (by norm_num [innerProd, example_input, example_weights])]

/-- C3: for an example and a weight vector of the same length, `adjust_weights`
returns the vector whose i-th entry is
`weights[i] + (expected - observed) * example[i] * learningRate`; the input
weight vector itself is not mutated (the embedding is pure and a fresh list is
built). -/
theorem C3_adjust_formula (o e : ℚ) (xs w : List ℚ) (lr : ℚ)
    (h : xs.length = w.length) :
    adjust_weights o e xs w lr =
      Except.ok (List.zipWith (fun x wi => wi + (e - o) * x * lr) xs w) ∧
    ∀ i, i < xs.length →
      (List.zipWith (fun x wi => wi + (e - o) * x * lr) xs w).getD i 0 =
        w.getD i 0 + (e - o) * xs.getD i 0 * lr := by
  constructor
  · exact adjust_weights_ok o e lr xs w (le_of_eq h)
  · intro i hi
    have hiw : i < w.length := by omega
    have hz : i < (List.zipWith (fun x wi => wi + (e - o) * x * lr) xs w).length := by
      rw [List.length_zipWith]
      omega
    rw [List.getD_eq_getElem _ _ hz, List.getD_eq_getElem _ _ hi,
      List.getD_eq_getElem _ _ hiw, List.getElem_zipWith]

/-- C3 witness: the formula at a concrete input. -/
theorem C3_witness :
    ([1, 2] : List ℚ).length = ([3, 4] : List ℚ).length ∧
      adjust_weights 1 0 [1, 2] [3, 4] 2 =
        Except.ok (List.zipWith (fun x wi => wi + ((0 : ℚ) - 1) * x * 2) [1, 2] [3, 4]) ∧
      List.zipWith (fun x wi => wi + ((0 : ℚ) - 1) * x * 2) [1, 2] [3, 4] = [1, 0] := by
  refine ⟨rfl, (C3_adjust_formula 1 0 [1, 2] [3, 4] 2 rfl).1, ?_⟩
  norm_num

/-- C5 counterexample: `adjust_weights` called with an example vector shorter
than the weight vector does not raise any error: it silently succeeds,
returning a truncated weight vector. -/
theorem C5_counterexample :
    adjust_weights 0 0 [1] [1, 2] 1 = Except.ok [1] := by
  norm_num [adjust_weights, adjustLoop, bindE_ok, pureE]

/-- C5 (amended): on mismatched lengths `perceptron` always raises (numpy's
shape error), deterministically; `adjust_weights` raises (an index error) only
when the example is strictly longer than the weights, and silently returns the
truncated adjusted vector when the example is strictly shorter.  Neither
raises an error class named DimensionMismatch. -/
theorem C5_dimension_mismatch (input w : List ℚ) (θ o e lr : ℚ)
    (h : input.length ≠ w.length) :
    perceptron input w θ = Except.error "ValueError: shapes not aligned" ∧
    (w.length < input.length →
      adjust_weights o e input w lr =
        Except.error "IndexError: list index out of range") ∧
    (input.length < w.length →
      adjust_weights o e input w lr =
        Except.ok (List.zipWith (fun x wi => wi + (e - o) * x * lr) input w)) := by
  refine ⟨?_, ?_, ?_⟩
  · simp only [perceptron, npDot, if_neg h, bindE_error]
  · intro hlt
    exact adjust_weights_error o e lr input w hlt
  · intro hlt
    exact adjust_weights_ok o e lr input w (le_of_lt hlt)

/-- C5 witness: a longer example raises in both operations; a shorter example
raises only in `perceptron` while `adjust_weights` silently succeeds. -/
theorem C5_witness :
    (([1, 2, 3] : List ℚ).length ≠ ([1] : List ℚ).length ∧
      perceptron [1, 2, 3] [1] (1/2) = Except.error "ValueError: shapes not aligned" ∧
      adjust_weights 0 0 [1, 2, 3] [1] 1 =
        Except.error "IndexError: list index out of range") ∧
    (([1] : List ℚ).length ≠ ([1, 2] : List ℚ).length ∧
      perceptron [1] [1, 2] (1/2) = Except.error "ValueError: shapes not aligned" ∧
      adjust_weights 0 0 [1] [1, 2] 1 =
        Except.ok (List.zipWith (fun x wi => wi + ((0 : ℚ) - 0) * x * 1) [1] [1, 2])) := by
  have h1 := C5_dimension_mismatch [1, 2, 3] [1] (1/2) 0 0 1 (by decide)
  have h2 := C5_dimension_mismatch [1] [1, 2] (1/2) 0 0 1 (by decide)
  exact ⟨⟨by decide, h1.1, h1.2.1 (by decide)⟩, ⟨by decide, h2.1, h2.2.2 (by decide)⟩⟩

/-- C10: the bias added to the dot product is the constant `0.2` fixed inside
the `perceptron` body: on equal-length vectors the function coincides with the
spec's bias-parametric `evaluate` applied at bias `1/5`, independently of any
bias a caller would intend to configure. -/
theorem C10_bias_constant (input weights : List ℚ) (θ : ℚ)
    (h : input.length = weights.length) :
    perceptron input weights θ = evaluate input weights (1/5) θ := by
  rw [perceptron_eq_formula input weights θ h, evaluate, if_pos h]

/-- C10 witness: the agreement at the notebook's concrete example. -/
theorem C10_witness :
    example_input.length = example_weights.length ∧
      perceptron example_input example_weights (1/2) =
        evaluate example_input example_weights (1/5) (1/2) :=
  ⟨rfl, C10_bias_constant example_input example_weights (1/2) rfl⟩

/-- C1: `train_perceptron` coincides with the spec-shaped `trainBatches`
iteration: exactly `num_batches` batches are performed (the trace has exactly
`num_batches` entries — no early exit on convergence), each batch computes
every example's output against the batch's starting weights before any update
is applied, then chains `adjust_weights` once per example in input order, each
adjustment starting from the previous one's result, and the next batch starts
from the end of the chain. -/
theorem C1_train_batch_structure (f : List (List ℚ)) (l : List ℚ) (w : List ℚ)
    (θ : ℚ) (n : Nat) (lr : ℚ) :
    train_perceptron f l w θ n lr =
      (trainBatches f l θ lr n w).map
        (fun tr => { trace := tr, retVal := none }) ∧
    ∀ r, train_perceptron f l w θ n lr = Except.ok r → r.trace.length = n := by
  refine ⟨train_eq_trainBatches f l w θ n lr, ?_⟩
  intro r hr
  rw [train_eq_trainBatches] at hr
  cases htb : trainBatches f l θ lr n w with
  | error e => rw [htb] at hr; cases hr
  | ok tr =>
    rw [htb] at hr
    simp only [Except.map, Except.ok.injEq] at hr
    subst hr
    simpa using trainBatches_length f l θ lr n w tr htb

/-- A one-example, one-batch training run, used as a concrete witness. -/
def tinyRun : TrainResult :=
  { trace := [{ pre := [1], output := [1], post := [1] }], retVal := none }

/-- C1 witness: the structure theorem applied at a concrete one-batch run. -/
theorem C1_witness :
    (train_perceptron [[1]] [1] [1] (1/2) 1 1 =
      (trainBatches [[1]] [1] (1/2) 1 1 [1]).map
        (fun tr => { trace := tr, retVal := none })) ∧
    tinyRun.trace.length = 1 := by
  have h := C1_train_batch_structure [[1]] [1] [1] (1/2) 1 1
  refine ⟨h.1, h.2 tinyRun ?_⟩
  norm_num [train_perceptron, trainLoop, outputLoop, updateLoop, perceptron, npDot,
    adjust_weights, adjustLoop, bias_weight, bindE_ok, pureE, tinyRun]

/-- C4 counterexample: on a concrete input the end-of-last-batch weight vector
is `[1]`, but `train_perceptron` does not return it: the Python function body
has no return statement, so the call's value is `None`. -/
theorem C4_counterexample :
    finalWeights [[1]] [1] (1/2) 1 1 [1] = Except.ok [1] ∧
    (train_perceptron [[1]] [1] [1] (1/2) 1 1).map TrainResult.retVal =
      Except.ok none ∧
    (train_perceptron [[1]] [1] [1] (1/2) 1 1).map TrainResult.retVal ≠
      Except.ok (some [1]) := by
  refine ⟨?_, ?_, ?_⟩
  · norm_num [finalWeights, batchOutputs, chainAdjust, perceptron, npDot,
      adjust_weights, adjustLoop, bias_weight, bindE_ok, pureE]
  · norm_num [train_perceptron, trainLoop, outputLoop, updateLoop, perceptron, npDot,
      adjust_weights, adjustLoop, bias_weight, bindE_ok, pureE, Except.map, List.map_cons, List.map_nil]
  · intro hc
    rw [show (train_perceptron [[1]] [1] [1] (1/2) 1 1).map TrainResult.retVal =
        Except.ok none by
      norm_num [train_perceptron, trainLoop, outputLoop, updateLoop, perceptron, npDot,
        adjust_weights, adjustLoop, bias_weight, bindE_ok, pureE, Except.map, List.map_cons, List.map_nil]] at hc
    simp at hc

/-- C4 (amended): `train_perceptron` returns `None`, never the weights; the
final weight vector as of the end of the last batch is observable only in the
per-batch printed trace, as the last entry's post-batch weights. -/
theorem C4_train_returns_none (f : List (List ℚ)) (l w : List ℚ) (θ : ℚ)
    (n : Nat) (lr : ℚ) :
    ∀ r, train_perceptron f l w θ n lr = Except.ok r →
      r.retVal = none ∧
      finalWeights f l θ lr n w =
        Except.ok ((r.trace.map BatchLog.post).getLastD w) := by
  intro r hr
  rw [train_eq_trainBatches] at hr
  cases htb : trainBatches f l θ lr n w with
  | error e => rw [htb] at hr; cases hr
  | ok tr =>
    rw [htb] at hr
    simp only [Except.map, Except.ok.injEq] at hr
    subst hr
    exact ⟨rfl, trainBatches_last_post f l θ lr n w tr htb⟩

/-- C4 witness: the amended statement applied at a concrete one-batch run. -/
theorem C4_witness :
    tinyRun.retVal = none ∧
      finalWeights [[1]] [1] (1/2) 1 1 [1] =
        Except.ok ((tinyRun.trace.map BatchLog.post).getLastD [1]) := by
  refine C4_train_returns_none [[1]] [1] [1] (1/2) 1 1 tinyRun ?_
  norm_num [train_perceptron, trainLoop, outputLoop, updateLoop, perceptron, npDot,
    adjust_weights, adjustLoop, bias_weight, bindE_ok, pureE, tinyRun]

/-- C6: training on the XOR dataset never reaches a batch whose output vector
equals the label vector `[0, 1, 1, 0]`, for every learning rate, every initial
weight vector, every threshold and every number of batches. -/
theorem C6_xor_never_converges (lr : ℚ) (w : List ℚ) (n : Nat) (θ : ℚ)
    (r : TrainResult)
    (hr : train_perceptron xor_features xor_labels w θ n lr = Except.ok r) :
    ∀ bl ∈ r.trace, bl.output ≠ xor_labels := by
  rw [train_eq_trainBatches] at hr
  cases htb : trainBatches xor_features xor_labels θ lr n w with
  | error e => rw [htb] at hr; cases hr
  | ok tr =>
    rw [htb] at hr
    simp only [Except.map, Except.ok.injEq] at hr
    subst hr
    intro bl hbl
    exact xor_outputs_never_labels bl.pre θ bl.output
      (trainBatches_pre_output xor_features xor_labels θ lr n w tr htb bl hbl)

/-- The one-batch XOR run of the notebook's learning rate 0.05, starting from
weights `[0.02, 0.34]`, used as a concrete witness. -/
def xorRun : TrainResult :=
  { trace := [{ pre := [1/50, 17/50], output := [0, 1, 0, 1],
                post := [1/50, 29/100] }],
    retVal := none }

/-- C6 witness: the non-convergence theorem applied at the notebook's concrete
XOR call (learning rate 0.05, initial weights `[0.02, 0.34]`). -/
theorem C6_witness :
    ({ pre := [1/50, 17/50], output := [0, 1, 0, 1],
       post := [1/50, 29/100] } : BatchLog).output ≠ xor_labels := by
  have hr : train_perceptron xor_features xor_labels [1/50, 17/50] (1/2) 1 (1/20) =
      Except.ok xorRun := by
    norm_num [train_perceptron, trainLoop, outputLoop, updateLoop, perceptron, npDot,
      adjust_weights, adjustLoop, bias_weight, xor_features, xor_labels,
      bindE_ok, pureE, xorRun]
  exact C6_xor_never_converges (1/20) [1/50, 17/50] 1 (1/2) xorRun hr _
    (List.mem_singleton_self _)

/-- C7: on the logical-OR dataset with threshold `0.5` and learning rate 1,
for every initial weight pair with small positive entries (the notebook draws
them from `(0, 0.001)`), training reaches a batch whose output vector equals
the label vector within 2 batches: batch 2's outputs are exactly the labels. -/
theorem C7_or_converges_within_two (a b : ℚ) (ha0 : 0 < a) (ha1 : a < 1/1000)
    (hb0 : 0 < b) (hb1 : b < 1/1000) (n : Nat) (hn : 2 ≤ n) (r : TrainResult)
    (hr : train_perceptron sample_data expected_results [a, b] (1/2) n 1 =
      Except.ok r) :
    ∃ i, i < 2 ∧ (r.trace.map BatchLog.output)[i]? = some expected_results := by
  rw [train_eq_trainBatches] at hr
  obtain ⟨k, rfl⟩ : ∃ k, n = k + 2 := ⟨n - 2, by omega⟩
  have s1 : batchOutputs (1/2) [a, b] sample_data = Except.ok [0, 0, 0, 0] :=
    or_outputs_all_wrong a b (by linarith) (by linarith) (by linarith)
  have u1 : chainAdjust 1 sample_data [0, 0, 0, 0] expected_results [a, b] =
      Except.ok [a + 2 * 1, b + 2 * 1] := or_update_all_wrong 1 a b
  have s2 : batchOutputs (1/2) [a + 2 * 1, b + 2 * 1] sample_data =
      Except.ok [0, 1, 1, 1] :=
    or_outputs_converged _ _ (by linarith) (by linarith)
  have u2 : chainAdjust 1 sample_data [0, 1, 1, 1] expected_results
      [a + 2 * 1, b + 2 * 1] = Except.ok [a + 2 * 1, b + 2 * 1] :=
    or_update_converged 1 _ _
  simp only [trainBatches, s1, u1, s2, u2, bindE_ok, pureE] at hr
  cases hrem : trainBatches sample_data expected_results (1/2) 1 k
      [a + 2 * 1, b + 2 * 1] with
  | error e => rw [hrem] at hr; cases hr
  | ok rest =>
    rw [hrem] at hr
    simp only [bindE_ok, pureE, Except.map, Except.ok.injEq] at hr
    subst hr
    exact ⟨1, by norm_num, by simp [expected_results]⟩

/-- The two-batch OR run with learning rate 1 from initial weights
`[1/2000, 1/2000]`, used as a concrete witness. -/
def orRun1 : TrainResult :=
  { trace := [
      { pre := [1/2000, 1/2000], output := [0, 0, 0, 0],
        post := [4001/2000, 4001/2000] },
      { pre := [4001/2000, 4001/2000], output := [0, 1, 1, 1],
        post := [4001/2000, 4001/2000] }],
    retVal := none }

/-- C7 witness: the convergence theorem applied at initial weights
`[1/2000, 1/2000]` with 2 batches. -/
theorem C7_witness :
    (0 : ℚ) < 1/2000 ∧ (1/2000 : ℚ) < 1/1000 ∧
    ∃ i, i < 2 ∧ (orRun1.trace.map BatchLog.output)[i]? = some expected_results := by
  have hr : train_perceptron sample_data expected_results [1/2000, 1/2000] (1/2) 2 1 =
      Except.ok orRun1 := by
    norm_num [train_perceptron, trainLoop, outputLoop, updateLoop, perceptron, npDot,
      adjust_weights, adjustLoop, bias_weight, sample_data, expected_results,
      bindE_ok, pureE, orRun1]
  exact ⟨by norm_num, by norm_num,
    C7_or_converges_within_two (1/2000) (1/2000) (by norm_num) (by norm_num)
      (by norm_num) (by norm_num) 2 (le_refl 2) orRun1 hr⟩

/-- C8 counterexample: from the same small positive initial weights
`[1/2000, 1/2000]`, learning rate `9/10 < 1` reaches a label-matching batch at
batch 2, exactly as learning rate 1 does — not strictly later; and the batch
count is not monotone in the rate: rate `747/10000` first matches at batch 4
while the larger rate `299/4000` first matches only at batch 5. -/
theorem C8_counterexample :
    (9/10 : ℚ) < 1 ∧
    (train_perceptron sample_data expected_results [1/2000, 1/2000] (1/2) 2 (9/10)).map
        (fun r => r.trace.map BatchLog.output) =
      Except.ok [[0, 0, 0, 0], [0, 1, 1, 1]] ∧
    (train_perceptron sample_data expected_results [1/2000, 1/2000] (1/2) 2 1).map
        (fun r => r.trace.map BatchLog.output) =
      Except.ok [[0, 0, 0, 0], [0, 1, 1, 1]] ∧
    (747/10000 : ℚ) < 299/4000 ∧
    (train_perceptron sample_data expected_results [1/2000, 1/2000] (1/2) 5
        (747/10000)).map (fun r => r.trace.map BatchLog.output) =
      Except.ok [[0, 0, 0, 0], [0, 0, 0, 0], [0, 0, 0, 1], [0, 1, 1, 1], [0, 1, 1, 1]] ∧
    (train_perceptron sample_data expected_results [1/2000, 1/2000] (1/2) 5
        (299/4000)).map (fun r => r.trace.map BatchLog.output) =
      Except.ok [[0, 0, 0, 0], [0, 0, 0, 1], [0, 0, 0, 1], [0, 0, 0, 1], [0, 1, 1, 1]] := by
  refine ⟨by norm_num, ?_, ?_, by norm_num, ?_, ?_⟩
  · -- learning rate 9/10, two batches
    rw [train_eq_trainBatches]
    have s1 : batchOutputs (1/2) [1/2000, 1/2000] sample_data =
        Except.ok [0, 0, 0, 0] :=
      or_outputs_all_wrong _ _ (by norm_num) (by norm_num) (by norm_num)
    have u1 : chainAdjust (9/10) sample_data [0, 0, 0, 0] expected_results
        [1/2000, 1/2000] = Except.ok [3601/2000, 3601/2000] := by
      rw [or_update_all_wrong]
      norm_num
    have s2 : batchOutputs (1/2) [3601/2000, 3601/2000] sample_data =
        Except.ok [0, 1, 1, 1] :=
      or_outputs_converged _ _ (by norm_num) (by norm_num)
    have u2 : chainAdjust (9/10) sample_data [0, 1, 1, 1] expected_results
        [3601/2000, 3601/2000] = Except.ok [3601/2000, 3601/2000] :=
      or_update_converged _ _ _
    simp only [trainBatches, s1, u1, s2, u2, bindE_ok, pureE, Except.map, List.map_cons, List.map_nil]
  · -- learning rate 1, two batches
    rw [train_eq_trainBatches]
    have s1 : batchOutputs (1/2) [1/2000, 1/2000] sample_data =
        Except.ok [0, 0, 0, 0] :=
      or_outputs_all_wrong _ _ (by norm_num) (by norm_num) (by norm_num)
    have u1 : chainAdjust 1 sample_data [0, 0, 0, 0] expected_results
        [1/2000, 1/2000] = Except.ok [4001/2000, 4001/2000] := by
      rw [or_update_all_wrong]
      norm_num
    have s2 : batchOutputs (1/2) [4001/2000, 4001/2000] sample_data =
        Except.ok [0, 1, 1, 1] :=
      or_outputs_converged _ _ (by norm_num) (by norm_num)
    have u2 : chainAdjust 1 sample_data [0, 1, 1, 1] expected_results
        [4001/2000, 4001/2000] = Except.ok [4001/2000, 4001/2000] :=
      or_update_converged _ _ _
    simp only [trainBatches, s1, u1, s2, u2, bindE_ok, pureE, Except.map, List.map_cons, List.map_nil]
  · -- learning rate 747/10000, five batches, first match at batch 4
    rw [train_eq_trainBatches]
    have s1 : batchOutputs (1/2) [1/2000, 1/2000] sample_data =
        Except.ok [0, 0, 0, 0] :=
      or_outputs_all_wrong _ _ (by norm_num) (by norm_num) (by norm_num)
    have u1 : chainAdjust (747/10000) sample_data [0, 0, 0, 0] expected_results
        [1/2000, 1/2000] = Except.ok [1499/10000, 1499/10000] := by
      rw [or_update_all_wrong]
      norm_num
    have s2 : batchOutputs (1/2) [1499/10000, 1499/10000] sample_data =
        Except.ok [0, 0, 0, 0] :=
      or_outputs_all_wrong _ _ (by norm_num) (by norm_num) (by norm_num)
    have u2 : chainAdjust (747/10000) sample_data [0, 0, 0, 0] expected_results
        [1499/10000, 1499/10000] = Except.ok [2993/10000, 2993/10000] := by
      rw [or_update_all_wrong]
      norm_num
    have s3 : batchOutputs (1/2) [2993/10000, 2993/10000] sample_data =
        Except.ok [0, 0, 0, 1] :=
      or_outputs_last_right _ _ (by norm_num) (by norm_num) (by norm_num)
    have u3 : chainAdjust (747/10000) sample_data [0, 0, 0, 1] expected_results
        [2993/10000, 2993/10000] = Except.ok [187/500, 187/500] := by
      rw [or_update_last_right]
      norm_num
    have s4 : batchOutputs (1/2) [187/500, 187/500] sample_data =
        Except.ok [0, 1, 1, 1] :=
      or_outputs_converged _ _ (by norm_num) (by norm_num)
    have u4 : chainAdjust (747/10000) sample_data [0, 1, 1, 1] expected_results
        [187/500, 187/500] = Except.ok [187/500, 187/500] :=
      or_update_converged _ _ _
    simp only [trainBatches, s1, u1, s2, u2, s3, u3, s4, u4,
      bindE_ok, pureE, Except.map, List.map_cons, List.map_nil]
  · -- learning rate 299/4000, five batches, first match only at batch 5
    rw [train_eq_trainBatches]
    have s1 : batchOutputs (1/2) [1/2000, 1/2000] sample_data =
        Except.ok [0, 0, 0, 0] :=
      or_outputs_all_wrong _ _ (by norm_num) (by norm_num) (by norm_num)
    have u1 : chainAdjust (299/4000) sample_data [0, 0, 0, 0] expected_results
        [1/2000, 1/2000] = Except.ok [3/20, 3/20] := by
      rw [or_update_all_wrong]
      norm_num
    have s2 : batchOutputs (1/2) [3/20, 3/20] sample_data =
        Except.ok [0, 0, 0, 1] :=
      or_outputs_last_right _ _ (by norm_num) (by norm_num) (by norm_num)
    have u2 : chainAdjust (299/4000) sample_data [0, 0, 0, 1] expected_results
        [3/20, 3/20] = Except.ok [899/4000, 899/4000] := by
      rw [or_update_last_right]
      norm_num
    have s3 : batchOutputs (1/2) [899/4000, 899/4000] sample_data =
        Except.ok [0, 0, 0, 1] :=
      or_outputs_last_right _ _ (by norm_num) (by norm_num) (by norm_num)
    have u3 : chainAdjust (299/4000) sample_data [0, 0, 0, 1] expected_results
        [899/4000, 899/4000] = Except.ok [599/2000, 599/2000] := by
      rw [or_update_last_right]
      norm_num
    have s4 : batchOutputs (1/2) [599/2000, 599/2000] sample_data =
        Except.ok [0, 0, 0, 1] :=
      or_outputs_last_right _ _ (by norm_num) (by norm_num) (by norm_num)
    have u4 : chainAdjust (299/4000) sample_data [0, 0, 0, 1] expected_results
        [599/2000, 599/2000] = Except.ok [1497/4000, 1497/4000] := by
      rw [or_update_last_right]
      norm_num
    have s5 : batchOutputs (1/2) [1497/4000, 1497/4000] sample_data =
        Except.ok [0, 1, 1, 1] :=
      or_outputs_converged _ _ (by norm_num) (by norm_num)
    have u5 : chainAdjust (299/4000) sample_data [0, 1, 1, 1] expected_results
        [1497/4000, 1497/4000] = Except.ok [1497/4000, 1497/4000] :=
      or_update_converged _ _ _
    simp only [trainBatches, s1, u1, s2, u2, s3, u3, s4, u4, s5, u5,
      bindE_ok, pureE, Except.map, List.map_cons, List.map_nil]

/-- C8 (amended): with the same small positive initial weights, the example
rate 0.05 still converges but strictly later than rate 1: its first five batch
outputs are `[0,0,0,0], [0,0,0,0], [0,0,0,1], [0,0,0,1], [0,1,1,1]`, so the
first label-matching batch is batch 5, against batch 2 for rate 1 (outputs
`[0,0,0,0], [0,1,1,1]`).  The strictness does not hold for every rate below 1,
and batches-to-convergence is not monotone in the rate (see the
counterexample). -/
theorem C8_learning_rate_convergence (a b : ℚ) (ha0 : 0 < a) (ha1 : a < 1/1000)
    (hb0 : 0 < b) (hb1 : b < 1/1000) :
    (∀ n r, 5 ≤ n →
      train_perceptron sample_data expected_results [a, b] (1/2) n (1/20) =
        Except.ok r →
      (r.trace.map BatchLog.output).take 5 =
        [[0, 0, 0, 0], [0, 0, 0, 0], [0, 0, 0, 1], [0, 0, 0, 1], [0, 1, 1, 1]]) ∧
    (∀ n r, 2 ≤ n →
      train_perceptron sample_data expected_results [a, b] (1/2) n 1 =
        Except.ok r →
      (r.trace.map BatchLog.output).take 2 = [[0, 0, 0, 0], [0, 1, 1, 1]]) := by
  constructor
  · intro n r hn hr
    rw [train_eq_trainBatches] at hr
    obtain ⟨k, rfl⟩ : ∃ k, n = k + 5 := ⟨n - 5, by omega⟩
    have s1 : batchOutputs (1/2) [a, b] sample_data = Except.ok [0, 0, 0, 0] :=
      or_outputs_all_wrong a b (by linarith) (by linarith) (by linarith)
    have u1 : chainAdjust (1/20) sample_data [0, 0, 0, 0] expected_results [a, b] =
        Except.ok [a + 2 * (1/20), b + 2 * (1/20)] := or_update_all_wrong (1/20) a b
    have s2 : batchOutputs (1/2) [a + 2 * (1/20), b + 2 * (1/20)] sample_data =
        Except.ok [0, 0, 0, 0] :=
      or_outputs_all_wrong _ _ (by linarith) (by linarith) (by linarith)
    have u2 : chainAdjust (1/20) sample_data [0, 0, 0, 0] expected_results
        [a + 2 * (1/20), b + 2 * (1/20)] =
        Except.ok [a + 2 * (1/20) + 2 * (1/20), b + 2 * (1/20) + 2 * (1/20)] :=
      or_update_all_wrong (1/20) _ _
    have s3 : batchOutputs (1/2)
        [a + 2 * (1/20) + 2 * (1/20), b + 2 * (1/20) + 2 * (1/20)] sample_data =
        Except.ok [0, 0, 0, 1] :=
      or_outputs_last_right _ _ (by linarith) (by linarith) (by linarith)
    have u3 : chainAdjust (1/20) sample_data [0, 0, 0, 1] expected_results
        [a + 2 * (1/20) + 2 * (1/20), b + 2 * (1/20) + 2 * (1/20)] =
        Except.ok [a + 2 * (1/20) + 2 * (1/20) + 1/20,
          b + 2 * (1/20) + 2 * (1/20) + 1/20] :=
      or_update_last_right (1/20) _ _
    have s4 : batchOutputs (1/2)
        [a + 2 * (1/20) + 2 * (1/20) + 1/20, b + 2 * (1/20) + 2 * (1/20) + 1/20]
        sample_data = Except.ok [0, 0, 0, 1] :=
      or_outputs_last_right _ _ (by linarith) (by linarith) (by linarith)
    have u4 : chainAdjust (1/20) sample_data [0, 0, 0, 1] expected_results
        [a + 2 * (1/20) + 2 * (1/20) + 1/20, b + 2 * (1/20) + 2 * (1/20) + 1/20] =
        Except.ok [a + 2 * (1/20) + 2 * (1/20) + 1/20 + 1/20,
          b + 2 * (1/20) + 2 * (1/20) + 1/20 + 1/20] :=
      or_update_last_right (1/20) _ _
    have s5 : batchOutputs (1/2)
        [a + 2 * (1/20) + 2 * (1/20) + 1/20 + 1/20,
          b + 2 * (1/20) + 2 * (1/20) + 1/20 + 1/20] sample_data =
        Except.ok [0, 1, 1, 1] :=
      or_outputs_converged _ _ (by linarith) (by linarith)
    have u5 : chainAdjust (1/20) sample_data [0, 1, 1, 1] expected_results
        [a + 2 * (1/20) + 2 * (1/20) + 1/20 + 1/20,
          b + 2 * (1/20) + 2 * (1/20) + 1/20 + 1/20] =
        Except.ok [a + 2 * (1/20) + 2 * (1/20) + 1/20 + 1/20,
          b + 2 * (1/20) + 2 * (1/20) + 1/20 + 1/20] :=
      or_update_converged (1/20) _ _
    simp only [trainBatches, s1, u1, s2, u2, s3, u3, s4, u4, s5, u5,
      bindE_ok, pureE] at hr
    cases hrem : trainBatches sample_data expected_results (1/2) (1/20) k
        [a + 2 * (1/20) + 2 * (1/20) + 1/20 + 1/20,
          b + 2 * (1/20) + 2 * (1/20) + 1/20 + 1/20] with
    | error e => rw [hrem] at hr; cases hr
    | ok rest =>
      rw [hrem] at hr
      simp only [bindE_ok, pureE, Except.map, Except.ok.injEq] at hr
      subst hr
      simp
  · intro n r hn hr
    rw [train_eq_trainBatches] at hr
    obtain ⟨k, rfl⟩ : ∃ k, n = k + 2 := ⟨n - 2, by omega⟩
    have s1 : batchOutputs (1/2) [a, b] sample_data = Except.ok [0, 0, 0, 0] :=
      or_outputs_all_wrong a b (by linarith) (by linarith) (by linarith)
    have u1 : chainAdjust 1 sample_data [0, 0, 0, 0] expected_results [a, b] =
        Except.ok [a + 2 * 1, b + 2 * 1] := or_update_all_wrong 1 a b
    have s2 : batchOutputs (1/2) [a + 2 * 1, b + 2 * 1] sample_data =
        Except.ok [0, 1, 1, 1] :=
      or_outputs_converged _ _ (by linarith) (by linarith)
    have u2 : chainAdjust 1 sample_data [0, 1, 1, 1] expected_results
        [a + 2 * 1, b + 2 * 1] = Except.ok [a + 2 * 1, b + 2 * 1] :=
      or_update_converged 1 _ _
    simp only [trainBatches, s1, u1, s2, u2, bindE_ok, pureE] at hr
    cases hrem : trainBatches sample_data expected_results (1/2) 1 k
        [a + 2 * 1, b + 2 * 1] with
    | error e => rw [hrem] at hr; cases hr
    | ok rest =>
      rw [hrem] at hr
      simp only [bindE_ok, pureE, Except.map, Except.ok.injEq] at hr
      subst hr
      simp

/-- The five-batch OR run with learning rate 1/20 from initial weights
`[1/2000, 1/2000]`, used as a concrete witness. -/
def orRun20 : TrainResult :=
  { trace := [
      { pre := [1/2000, 1/2000], output := [0, 0, 0, 0],
        post := [201/2000, 201/2000] },
      { pre := [201/2000, 201/2000], output := [0, 0, 0, 0],
        post := [401/2000, 401/2000] },
      { pre := [401/2000, 401/2000], output := [0, 0, 0, 1],
        post := [501/2000, 501/2000] },
      { pre := [501/2000, 501/2000], output := [0, 0, 0, 1],
        post := [601/2000, 601/2000] },
      { pre := [601/2000, 601/2000], output := [0, 1, 1, 1],
        post := [601/2000, 601/2000] }],
    retVal := none }

/-- C8 witness: the amended statement applied at initial weights
`[1/2000, 1/2000]`, with 5 batches at rate 1/20 and 2 batches at rate 1. -/
theorem C8_witness :
    (0 : ℚ) < 1/2000 ∧ (1/2000 : ℚ) < 1/1000 ∧
    (orRun20.trace.map BatchLog.output).take 5 =
      [[0, 0, 0, 0], [0, 0, 0, 0], [0, 0, 0, 1], [0, 0, 0, 1], [0, 1, 1, 1]] ∧
    (orRun1.trace.map BatchLog.output).take 2 = [[0, 0, 0, 0], [0, 1, 1, 1]] := by
  have h := C8_learning_rate_convergence (1/2000) (1/2000) (by norm_num)
    (by norm_num) (by norm_num) (by norm_num)
  have hr20 : train_perceptron sample_data expected_results [1/2000, 1/2000] (1/2) 5
      (1/20) = Except.ok orRun20 := by
    rw [train_eq_trainBatches]
    have s1 : batchOutputs (1/2) [1/2000, 1/2000] sample_data =
        Except.ok [0, 0, 0, 0] :=
      or_outputs_all_wrong _ _ (by norm_num) (by norm_num) (by norm_num)
    have u1 : chainAdjust (1/20) sample_data [0, 0, 0, 0] expected_results
        [1/2000, 1/2000] = Except.ok [201/2000, 201/2000] := by
      rw [or_update_all_wrong]
      norm_num
    have s2 : batchOutputs (1/2) [201/2000, 201/2000] sample_data =
        Except.ok [0, 0, 0, 0] :=
      or_outputs_all_wrong _ _ (by norm_num) (by norm_num) (by norm_num)
    have u2 : chainAdjust (1/20) sample_data [0, 0, 0, 0] expected_results
        [201/2000, 201/2000] = Except.ok [401/2000, 401/2000] := by
      rw [or_update_all_wrong]
      norm_num
    have s3 : batchOutputs (1/2) [401/2000, 401/2000] sample_data =
        Except.ok [0, 0, 0, 1] :=
      or_outputs_last_right _ _ (by norm_num) (by norm_num) (by norm_num)
    have u3 : chainAdjust (1/20) sample_data [0, 0, 0, 1] expected_results
        [401/2000, 401/2000] = Except.ok [501/2000, 501/2000] := by
      rw [or_update_last_right]
      norm_num
    have s4 : batchOutputs (1/2) [501/2000, 501/2000] sample_data =
        Except.ok [0, 0, 0, 1] :=
      or_outputs_last_right _ _ (by norm_num) (by norm_num) (by norm_num)
    have u4 : chainAdjust (1/20) sample_data [0, 0, 0, 1] expected_results
        [501/2000, 501/2000] = Except.ok [601/2000, 601/2000] := by
      rw [or_update_last_right]
      norm_num
    have s5 : batchOutputs (1/2) [601/2000, 601/2000] sample_data =
        Except.ok [0, 1, 1, 1] :=
      or_outputs_converged _ _ (by norm_num) (by norm_num)
    have u5 : chainAdjust (1/20) sample_data [0, 1, 1, 1] expected_results
        [601/2000, 601/2000] = Except.ok [601/2000, 601/2000] :=
      or_update_converged _ _ _
    simp only [trainBatches, s1, u1, s2, u2, s3, u3, s4, u4, s5, u5,
      bindE_ok, pureE, Except.map, orRun20]
  have hr1 : train_perceptron sample_data expected_results [1/2000, 1/2000] (1/2) 2
      1 = Except.ok orRun1 := by
    norm_num [train_perceptron, trainLoop, outputLoop, updateLoop, perceptron, npDot,
      adjust_weights, adjustLoop, bias_weight, sample_data, expected_results,
      bindE_ok, pureE, orRun1]
  exact ⟨by norm_num, by norm_num, h.1 5 orRun20 (le_refl 5) hr20,
    h.2 2 orRun1 (le_refl 2) hr1⟩

end Ann
